import Mathlib

/-!
Verification of the `aur_checker.py` update-widget pipeline.

The Python program is shallowly embedded below:

* Python strings are Lean `String` (a wrapper around `List Char`);
* `str.split()` (whitespace tokenization) is `pySplit`, built from the
  structurally recursive `wsTokensAux`;
* `str.strip()` is `pyStrip`; the truthiness test `if line.strip():` is
  the equivalent `some character is not whitespace` test;
* the newline split of the stripped stdout is `pyLines`;
* Python dicts with keys name, current, new and type
  are the structure `UpdateRecord`, whose derived decidable equality is
  Python's field-wise dict equality (used by `in` membership tests);
* an f-string interpolation of such a whole dict is `pyReprRecord`;
* the mutable `AURChecker` object is the state record `AURChecker`,
  threaded explicitly; each method becomes a state-passing function;
* `re.match(pattern, name)` for the anchored literal patterns of
  `_identify_nvidia_pkg` is `matchPat` over `(literal, isExactMatch)`
  pairs, with `listStartsWith` as anchored prefix matching.
-/

namespace AURWidget

/-- Anchored prefix test on character lists: does the first list occur at
the very start of the second?  Models `re.match` with a literal pattern. -/
def listStartsWith : List Char → List Char → Bool
  | [], _ => true
  | _ :: _, [] => false
  | a :: as, b :: bs => decide (a = b) && listStartsWith as bs

/-- Substring occurrence test on character lists (used only to state that
some rendered line does NOT contain a given fragment). -/
def listHasSub (p : List Char) : List Char → Bool
  | [] => decide (p = [])
  | c :: cs => listStartsWith p (c :: cs) || listHasSub p cs

/-- Worker for Python `str.split()`: accumulates the current (reversed)
token in `cur`, splitting at whitespace and dropping empty tokens. -/
def wsTokensAux (cur : List Char) : List Char → List (List Char)
  | [] => if cur = [] then [] else [cur.reverse]
  | c :: cs =>
    if c.isWhitespace then
      if cur = [] then wsTokensAux [] cs else cur.reverse :: wsTokensAux [] cs
    else wsTokensAux (c :: cur) cs

/-- Python `line.split()`: whitespace tokenization, empty tokens dropped. -/
def pySplit (s : String) : List String :=
  (wsTokensAux [] s.data).map String.mk

/-- Worker for the Python split on a newline separator: split at every newline, keeping
empty pieces (so the empty input gives one empty piece, as in Python). -/
def splitLinesAux (cur : List Char) : List Char → List String
  | [] => [String.mk cur.reverse]
  | c :: cs =>
    if c = '\n' then String.mk cur.reverse :: splitLinesAux [] cs
    else splitLinesAux (c :: cur) cs

/-- Python `str.strip()`: drop leading and trailing whitespace. -/
def pyStrip (s : String) : String :=
  String.mk (((s.data.dropWhile Char.isWhitespace).reverse.dropWhile Char.isWhitespace).reverse)

/-- Models `result.stdout.strip().split` on newlines, from the source. -/
def pyLines (stdout : String) : List String :=
  splitLinesAux [] (pyStrip stdout).data

/-- One pending package update, i.e. one of the Python dicts built from
parts[0], parts[1], parts[3] and an origin tag.
Derived `DecidableEq` is Python's dict equality. -/
structure UpdateRecord where
  name : String
  current : String
  new : String
  type : String
deriving DecidableEq, Repr

/-- Python's `repr` of an `UpdateRecord` dict, as interpolated by the
f-strings of the tooltip code that format a whole record. -/
def pyReprRecord (pkg : UpdateRecord) : String :=
  "\x7b'name': '" ++ pkg.name ++ "', 'current': '" ++ pkg.current ++
    "', 'new': '" ++ pkg.new ++ "', 'type': '" ++ pkg.type ++ "'\x7d"

/-- The mutable state of the Python `AURChecker` object: the three
accumulated record lists. -/
structure AURChecker where
  official_updates : List UpdateRecord
  aur_updates : List UpdateRecord
  nvidia_updates : List UpdateRecord
deriving DecidableEq, Repr

/-- Method `AURChecker.__init__`: all three lists start empty. -/
def AURChecker.init : AURChecker := ⟨[], [], []⟩

/-- The `nvidia_patterns` list of `_identify_nvidia_pkg`.  Each Python
regex is an anchored literal: `^lit$` becomes `(lit, true)` (exact match)
and `^lit` becomes `(lit, false)` (prefix match). -/
def nvidia_patterns : List (String × Bool) :=
  [("nvidia", true), ("nvidia-", false), ("nvidia-lts", true), ("nvidia-dkms", true),
   ("nvidia-utils", false), ("lib32-nvidia-utils", false), ("cuda", false),
   ("opencl-nvidia", false), ("nvidia-settings", false)]

/-- Whether `re.match(pattern, pkg_name)` succeeded, for one anchored literal
pattern. -/
def matchPat (p : String × Bool) (pkg_name : String) : Bool :=
  if p.2 then decide (pkg_name = p.1) else listStartsWith p.1.data pkg_name.data

/-- Method `AURChecker._identify_nvidia_pkg`: any pattern matches. -/
def identify_nvidia_pkg (pkg_name : String) : Bool :=
  nvidia_patterns.any (fun p => matchPat p pkg_name)

/-- The loop body of `get_official_updates` for one line of `pacman -Qu`
output: skip blank lines, tokenize, and on the 4-token `name cur -> new`
shape append an `official` record (and, for NVIDIA names, a copy to
`nvidia_updates`). -/
def process_official_line (st : AURChecker) (line : String) : AURChecker :=
  if line.data.any (fun c => !c.isWhitespace) then
    let parts := pySplit line
    if parts.length ≥ 4 ∧ parts.getD 2 "" = "->" then
      let st1 := { st with official_updates :=
        st.official_updates ++ [⟨parts.getD 0 "", parts.getD 1 "", parts.getD 3 "", "official"⟩] }
      if identify_nvidia_pkg (parts.getD 0 "") then
        { st1 with nvidia_updates :=
          st1.nvidia_updates ++ [⟨parts.getD 0 "", parts.getD 1 "", parts.getD 3 "", "official"⟩] }
      else st1
    else st
  else st

/-- The loop body of `get_aur_updates` for one line of `yay -Qua` output.
Note: exactly as in the source, the record appended to `aur_updates` is
tagged ``aur`` but the copy appended to `nvidia_updates` is tagged
``official``. -/
def process_aur_line (st : AURChecker) (line : String) : AURChecker :=
  if line.data.any (fun c => !c.isWhitespace) then
    let parts := pySplit line
    if parts.length ≥ 4 ∧ parts.getD 2 "" = "->" then
      let st1 := { st with aur_updates :=
        st.aur_updates ++ [⟨parts.getD 0 "", parts.getD 1 "", parts.getD 3 "", "aur"⟩] }
      if identify_nvidia_pkg (parts.getD 0 "") then
        { st1 with nvidia_updates :=
          st1.nvidia_updates ++ [⟨parts.getD 0 "", parts.getD 1 "", parts.getD 3 "", "official"⟩] }
      else st1
    else st
  else st

/-- Method `AURChecker.get_official_updates`, with the captured stdout of
`pacman -Qu` made an explicit argument (a failing command contributes the
empty string, hence no records). -/
def get_official_updates (st : AURChecker) (stdout : String) : AURChecker :=
  (pyLines stdout).foldl process_official_line st

/-- Method `AURChecker.get_aur_updates`, with the captured stdout of `yay -Qua`
made an explicit argument. -/
def get_aur_updates (st : AURChecker) (stdout : String) : AURChecker :=
  (pyLines stdout).foldl process_aur_line st

/-- Method `AURChecker.get_all_updates`: official first, then AUR. -/
def get_all_updates (st : AURChecker) (officialOut aurOut : String) : AURChecker :=
  get_aur_updates (get_official_updates st officialOut) aurOut

/-- Method `AURChecker.get_total_updates`. -/
def get_total_updates (st : AURChecker) : Nat :=
  st.official_updates.length + st.aur_updates.length

/-- The tooltip entry line ` • name: current -> new`. -/
def fmtEntry (pkg : UpdateRecord) : String :=
  " • " ++ pkg.name ++ ": " ++ pkg.current ++ " -> " ++ pkg.new

/-- The `if self.official_updates:` block of `_format_tooltip`, acting on
the accumulated `tooltip_lines`. -/
def officialSectionLines (st : AURChecker) (tooltip_lines : List String) : List String :=
  if st.official_updates ≠ [] then
    let l1 := tooltip_lines ++
      ["📦 Official Updates:", "Count:" ++ toString st.official_updates.length]
    let nvidia_official := st.official_updates.filter (fun pkg => decide (pkg ∈ st.nvidia_updates))
    let l2 := if nvidia_official ≠ [] then
        l1 ++ ["NVIDIA packages:"] ++ nvidia_official.map fmtEntry
      else l1
    let official_pkgs := st.official_updates.filter (fun pkg => decide (pkg ∉ st.nvidia_updates))
    let l3 := if official_pkgs ≠ [] then l2 ++ (official_pkgs.take 8).map fmtEntry else l2
    let other_aur := st.aur_updates.filter (fun pkg => decide (pkg ∉ st.nvidia_updates))
    let l4 :=
      if other_aur ≠ [] then
        let l4a := if nvidia_official ≠ [] then l3 ++ ["Other packages:"] else l3
        let l4b := l4a ++ (other_aur.take 8).map (fun pkg => " • " ++ pyReprRecord pkg)
        if other_aur.length > 8 then
          l4b ++ [" ...and" ++ toString (other_aur.length - 8) ++ " more"]
        else l4b
      else l3
    if l4 = [] then l4 ++ ["✅ System is up to date"]
    else l4 ++ ["", "📊 Total: " ++
      toString (st.official_updates.length + st.aur_updates.length) ++ " updates"]
  else tooltip_lines

/-- The `if self.aur_updates:` block of `_format_tooltip`. -/
def aurSectionLines (st : AURChecker) (tooltip_lines : List String) : List String :=
  if st.aur_updates ≠ [] then
    let l1 := if tooltip_lines ≠ [] then tooltip_lines ++ [""] else tooltip_lines
    let l2 := l1 ++ ["🌟 AUR Updates:"]
    let l3 := l2 ++ (st.aur_updates.take 8).map (fun pkg =>
      if pkg ∈ st.nvidia_updates then "  ⚠️ " ++ pyReprRecord pkg ++ " (NVIDIA)"
      else "  • " ++ pyReprRecord pkg)
    if st.aur_updates.length > 8 then
      l3 ++ ["  ... and " ++ toString (st.aur_updates.length - 8) ++ " more"]
    else l3
  else tooltip_lines

/-- Method `AURChecker._format_tooltip`, as the list of lines before the final
newline join: NVIDIA banner, official section, AUR section, and the final
up-to-date fallback. -/
def format_tooltip_lines (st : AURChecker) : List String :=
  let t1 : List String := if st.nvidia_updates ≠ [] then
      ["🚨 NVIDIA DRIVER UPDATES AVAILABLE!",
       "Consider checking Arch news before updating", ""]
    else []
  let t2 := officialSectionLines st t1
  let t3 := aurSectionLines st t2
  if t3 = [] then t3 ++ ["✅ System is up to date"] else t3

/-- Python newline join of a list of lines. -/
def joinNl : List String → String
  | [] => ""
  | [l] => l
  | l :: ls => l ++ "\n" ++ joinNl ls

/-- Method `AURChecker._format_tooltip` as the final string. -/
def format_tooltip (st : AURChecker) : String :=
  joinNl (format_tooltip_lines st)

/-- The payload built by `waybar_output`; the field `cssClass` models the
dict key ``class`` (a Lean keyword). -/
structure WaybarOutput where
  text : String
  alt : String
  tooltip : String
  cssClass : String
deriving DecidableEq, Repr

/-- Method `AURChecker.waybar_output`: run both adapters on the given command
outputs, pick icon and class, and build the payload.  Returns the payload
and the post-state of the checker. -/
def waybar_output (st : AURChecker) (officialOut aurOut : String) :
    WaybarOutput × AURChecker :=
  let st := get_all_updates st officialOut aurOut
  let total_updates := get_total_updates st
  let iconClass :=
    if st.nvidia_updates.length > 0 then ("⚠️", "nvidia-warning")
    else if total_updates > 0 then ("🔄", "has-updates")
    else ("✅", "no-updates")
  (⟨iconClass.1 ++ toString total_updates,
    "Updates: " ++ toString total_updates,
    format_tooltip st,
    iconClass.2⟩, st)

/-! ## Helper lemmas -/

theorem listStartsWith_refl (l : List Char) : listStartsWith l l = true := by
  induction l with
  | nil => rfl
  | cons a as ih => simp [listStartsWith, ih]

theorem wsTokensAux_nil_of_all_ws (l : List Char) (h : ∀ c ∈ l, c.isWhitespace) :
    wsTokensAux [] l = [] := by
  induction l with
  | nil => rfl
  | cons c cs ih =>
    have hc : c.isWhitespace := h c (List.mem_cons_self c cs)
    simp only [wsTokensAux, hc, if_true, reduceIte]
    exact ih (fun d hd => h d (List.mem_cons_of_mem c hd))

theorem pySplit_nil_of_blank (line : String)
    (h : ¬ line.data.any (fun c => !c.isWhitespace) = true) : pySplit line = [] := by
  have hall : ∀ c ∈ line.data, c.isWhitespace := by
    intro c hc
    by_contra hnc
    exact h (List.any_eq_true.mpr ⟨c, hc, by simp [hnc]⟩)
  simp [pySplit, wsTokensAux_nil_of_all_ws line.data hall]

theorem waybar_output_snd (st0 : AURChecker) (off aur : String) :
    (waybar_output st0 off aur).2 = get_all_updates st0 off aur := rfl

theorem waybar_output_cssClass (st0 : AURChecker) (off aur : String) :
    (waybar_output st0 off aur).1.cssClass =
      (if 0 < (get_all_updates st0 off aur).nvidia_updates.length then "nvidia-warning"
       else if 0 < get_total_updates (get_all_updates st0 off aur) then "has-updates"
       else "no-updates") := by
  by_cases h1 : 0 < (get_all_updates st0 off aur).nvidia_updates.length <;>
    by_cases h2 : 0 < get_total_updates (get_all_updates st0 off aur) <;>
      simp [waybar_output, h1, h2]

theorem waybar_output_text (st0 : AURChecker) (off aur : String) :
    (waybar_output st0 off aur).1.text =
      (if 0 < (get_all_updates st0 off aur).nvidia_updates.length then "⚠️"
       else if 0 < get_total_updates (get_all_updates st0 off aur) then "🔄"
       else "✅") ++ toString (get_total_updates (get_all_updates st0 off aur)) := by
  by_cases h1 : 0 < (get_all_updates st0 off aur).nvidia_updates.length <;>
    by_cases h2 : 0 < get_total_updates (get_all_updates st0 off aur) <;>
      simp [waybar_output, h1, h2]

theorem waybar_output_alt (st0 : AURChecker) (off aur : String) :
    (waybar_output st0 off aur).1.alt =
      "Updates: " ++ toString (get_total_updates (get_all_updates st0 off aur)) := rfl

theorem process_official_line_shift (st : AURChecker) (line : String) :
    (process_official_line st line).official_updates
      = st.official_updates ++ (process_official_line AURChecker.init line).official_updates ∧
    (process_official_line st line).aur_updates = st.aur_updates ∧
    (process_official_line st line).nvidia_updates
      = st.nvidia_updates ++ (process_official_line AURChecker.init line).nvidia_updates := by
  unfold process_official_line
  by_cases h1 : line.data.any (fun c => !c.isWhitespace) = true
  · simp only [if_pos h1]
    by_cases h2 : (pySplit line).length ≥ 4 ∧ (pySplit line).getD 2 "" = "->"
    · simp only [if_pos h2]
      by_cases h3 : identify_nvidia_pkg ((pySplit line).getD 0 "") = true
      · simp only [if_pos h3]
        refine ⟨?_, ?_, ?_⟩ <;> simp [AURChecker.init]
      · simp only [if_neg h3]
        refine ⟨?_, ?_, ?_⟩ <;> simp [AURChecker.init]
    · simp only [if_neg h2]
      refine ⟨?_, ?_, ?_⟩ <;> simp [AURChecker.init]
  · simp only [if_neg h1]
    refine ⟨?_, ?_, ?_⟩ <;> simp [AURChecker.init]

theorem process_aur_line_shift (st : AURChecker) (line : String) :
    (process_aur_line st line).official_updates = st.official_updates ∧
    (process_aur_line st line).aur_updates
      = st.aur_updates ++ (process_aur_line AURChecker.init line).aur_updates ∧
    (process_aur_line st line).nvidia_updates
      = st.nvidia_updates ++ (process_aur_line AURChecker.init line).nvidia_updates := by
  unfold process_aur_line
  by_cases h1 : line.data.any (fun c => !c.isWhitespace) = true
  · simp only [if_pos h1]
    by_cases h2 : (pySplit line).length ≥ 4 ∧ (pySplit line).getD 2 "" = "->"
    · simp only [if_pos h2]
      by_cases h3 : identify_nvidia_pkg ((pySplit line).getD 0 "") = true
      · simp only [if_pos h3]
        refine ⟨?_, ?_, ?_⟩ <;> simp [AURChecker.init]
      · simp only [if_neg h3]
        refine ⟨?_, ?_, ?_⟩ <;> simp [AURChecker.init]
    · simp only [if_neg h2]
      refine ⟨?_, ?_, ?_⟩ <;> simp [AURChecker.init]
  · simp only [if_neg h1]
    refine ⟨?_, ?_, ?_⟩ <;> simp [AURChecker.init]

theorem foldl_official_shift (ls : List String) : ∀ st : AURChecker,
    (ls.foldl process_official_line st).official_updates
      = st.official_updates ++ (ls.foldl process_official_line AURChecker.init).official_updates ∧
    (ls.foldl process_official_line st).aur_updates = st.aur_updates ∧
    (ls.foldl process_official_line st).nvidia_updates
      = st.nvidia_updates ++ (ls.foldl process_official_line AURChecker.init).nvidia_updates := by
  induction ls with
  | nil => intro st; simp [AURChecker.init]
  | cons l ls ih =>
    intro st
    simp only [List.foldl_cons]
    obtain ⟨ho1, ha1, hn1⟩ := ih (process_official_line st l)
    obtain ⟨ho2, ha2, hn2⟩ := ih (process_official_line AURChecker.init l)
    obtain ⟨so, sa, sn⟩ := process_official_line_shift st l
    refine ⟨?_, ?_, ?_⟩
    · rw [ho1, so, ho2, List.append_assoc]
    · rw [ha1, sa]
    · rw [hn1, sn, hn2, List.append_assoc]

theorem foldl_aur_shift (ls : List String) : ∀ st : AURChecker,
    (ls.foldl process_aur_line st).official_updates = st.official_updates ∧
    (ls.foldl process_aur_line st).aur_updates
      = st.aur_updates ++ (ls.foldl process_aur_line AURChecker.init).aur_updates ∧
    (ls.foldl process_aur_line st).nvidia_updates
      = st.nvidia_updates ++ (ls.foldl process_aur_line AURChecker.init).nvidia_updates := by
  induction ls with
  | nil => intro st; simp [AURChecker.init]
  | cons l ls ih =>
    intro st
    simp only [List.foldl_cons]
    obtain ⟨ho1, ha1, hn1⟩ := ih (process_aur_line st l)
    obtain ⟨ho2, ha2, hn2⟩ := ih (process_aur_line AURChecker.init l)
    obtain ⟨so, sa, sn⟩ := process_aur_line_shift st l
    refine ⟨?_, ?_, ?_⟩
    · rw [ho1, so]
    · rw [ha1, sa, ha2, List.append_assoc]
    · rw [hn1, sn, hn2, List.append_assoc]

theorem get_all_updates_shift (st : AURChecker) (off aur : String) :
    (get_all_updates st off aur).official_updates
      = st.official_updates ++ (get_all_updates AURChecker.init off aur).official_updates ∧
    (get_all_updates st off aur).aur_updates
      = st.aur_updates ++ (get_all_updates AURChecker.init off aur).aur_updates ∧
    (get_all_updates st off aur).nvidia_updates
      = st.nvidia_updates ++ (get_all_updates AURChecker.init off aur).nvidia_updates := by
  unfold get_all_updates get_aur_updates get_official_updates
  obtain ⟨ao1, aa1, an1⟩ := foldl_aur_shift (pyLines aur) ((pyLines off).foldl process_official_line st)
  obtain ⟨ao2, aa2, an2⟩ :=
    foldl_aur_shift (pyLines aur) ((pyLines off).foldl process_official_line AURChecker.init)
  obtain ⟨oo, oa, onv⟩ := foldl_official_shift (pyLines off) st
  refine ⟨?_, ?_, ?_⟩
  · rw [ao1, ao2, oo]
  · rw [aa1, aa2, oa]
    have : ((pyLines off).foldl process_official_line AURChecker.init).aur_updates = [] :=
      (foldl_official_shift (pyLines off) AURChecker.init).2.1
    rw [this, List.nil_append]
  · rw [an1, an2, onv, List.append_assoc]

theorem process_official_line_nvidia_le (line : String) :
    (process_official_line AURChecker.init line).nvidia_updates.length
      ≤ (process_official_line AURChecker.init line).official_updates.length := by
  unfold process_official_line
  by_cases h1 : line.data.any (fun c => !c.isWhitespace) = true
  · simp only [if_pos h1]
    by_cases h2 : (pySplit line).length ≥ 4 ∧ (pySplit line).getD 2 "" = "->"
    · simp only [if_pos h2]
      by_cases h3 : identify_nvidia_pkg ((pySplit line).getD 0 "") = true
      · simp only [if_pos h3]; simp [AURChecker.init]
      · simp only [if_neg h3]; simp [AURChecker.init]
    · simp only [if_neg h2]; simp [AURChecker.init]
  · simp only [if_neg h1]; simp [AURChecker.init]

theorem process_aur_line_nvidia_le (line : String) :
    (process_aur_line AURChecker.init line).nvidia_updates.length
      ≤ (process_aur_line AURChecker.init line).aur_updates.length := by
  unfold process_aur_line
  by_cases h1 : line.data.any (fun c => !c.isWhitespace) = true
  · simp only [if_pos h1]
    by_cases h2 : (pySplit line).length ≥ 4 ∧ (pySplit line).getD 2 "" = "->"
    · simp only [if_pos h2]
      by_cases h3 : identify_nvidia_pkg ((pySplit line).getD 0 "") = true
      · simp only [if_pos h3]; simp [AURChecker.init]
      · simp only [if_neg h3]; simp [AURChecker.init]
    · simp only [if_neg h2]; simp [AURChecker.init]
  · simp only [if_neg h1]; simp [AURChecker.init]

theorem foldl_official_nvidia_le (ls : List String) :
    (ls.foldl process_official_line AURChecker.init).nvidia_updates.length
      ≤ (ls.foldl process_official_line AURChecker.init).official_updates.length := by
  induction ls with
  | nil => simp [AURChecker.init]
  | cons l ls ih =>
    simp only [List.foldl_cons]
    obtain ⟨ho, ha, hn⟩ := foldl_official_shift ls (process_official_line AURChecker.init l)
    rw [ho, hn]
    simp only [List.length_append]
    exact Nat.add_le_add (process_official_line_nvidia_le l) ih

theorem foldl_aur_nvidia_le (ls : List String) :
    (ls.foldl process_aur_line AURChecker.init).nvidia_updates.length
      ≤ (ls.foldl process_aur_line AURChecker.init).aur_updates.length := by
  induction ls with
  | nil => simp [AURChecker.init]
  | cons l ls ih =>
    simp only [List.foldl_cons]
    obtain ⟨ho, ha, hn⟩ := foldl_aur_shift ls (process_aur_line AURChecker.init l)
    rw [ha, hn]
    simp only [List.length_append]
    exact Nat.add_le_add (process_aur_line_nvidia_le l) ih

theorem get_all_init_nvidia_le (off aur : String) :
    (get_all_updates AURChecker.init off aur).nvidia_updates.length
      ≤ (get_all_updates AURChecker.init off aur).official_updates.length
        + (get_all_updates AURChecker.init off aur).aur_updates.length := by
  unfold get_all_updates get_aur_updates get_official_updates
  obtain ⟨ao, aa, an⟩ :=
    foldl_aur_shift (pyLines aur) ((pyLines off).foldl process_official_line AURChecker.init)
  rw [ao, aa, an]
  simp only [List.length_append]
  have hXa : ((pyLines off).foldl process_official_line AURChecker.init).aur_updates = [] :=
    (foldl_official_shift (pyLines off) AURChecker.init).2.1
  rw [hXa]
  simp only [List.length_nil, Nat.zero_add]
  exact Nat.add_le_add (foldl_official_nvidia_le (pyLines off)) (foldl_aur_nvidia_le (pyLines aur))

theorem nvidia_nil_of_both_nil (off aur : String)
    (ho : (get_all_updates AURChecker.init off aur).official_updates = [])
    (ha : (get_all_updates AURChecker.init off aur).aur_updates = []) :
    (get_all_updates AURChecker.init off aur).nvidia_updates = [] := by
  have h := get_all_init_nvidia_le off aur
  rw [ho, ha] at h
  simp only [List.length_nil, Nat.add_zero, Nat.le_zero] at h
  exact List.eq_nil_of_length_eq_zero h

theorem mem_aurSectionLines (st : AURChecker) (tl : List String) (x : String)
    (hx : x ∈ tl) : x ∈ aurSectionLines st tl := by
  unfold aurSectionLines
  split
  · split <;> split <;> simp [List.mem_append, hx]
  · exact hx

theorem summary_mem_officialSectionLines (st : AURChecker) (tl : List String)
    (h : st.official_updates ≠ []) :
    ("📊 Total: " ++ toString (st.official_updates.length + st.aur_updates.length) ++ " updates")
      ∈ officialSectionLines st tl := by
  simp only [officialSectionLines, if_pos h]
  repeat' split
  all_goals simp_all [List.mem_append, List.append_eq_nil]

theorem aurSectionLines_eq_of_gt8 (st : AURChecker) (tl : List String)
    (h : 8 < st.aur_updates.length) :
    aurSectionLines st tl
      = (if tl ≠ [] then tl ++ [""] else tl) ++ ["🌟 AUR Updates:"]
          ++ (st.aur_updates.take 8).map (fun pkg =>
                if pkg ∈ st.nvidia_updates then "  ⚠️ " ++ pyReprRecord pkg ++ " (NVIDIA)"
                else "  • " ++ pyReprRecord pkg)
          ++ ["  ... and " ++ toString (st.aur_updates.length - 8) ++ " more"] := by
  have hne : st.aur_updates ≠ [] := by
    intro h0; rw [h0] at h; simp at h
  unfold aurSectionLines
  rw [if_pos hne, if_pos h]

theorem warn_entry_head (pkg : UpdateRecord) :
    ("  ⚠️ " ++ pyReprRecord pkg ++ " (NVIDIA)").data.head? = some ' ' := rfl

theorem plain_entry_head (pkg : UpdateRecord) :
    ("  • " ++ pyReprRecord pkg).data.head? = some ' ' := rfl

theorem more_line_head (n : Nat) :
    ("  ... and " ++ toString n ++ " more").data.head? = some ' ' := rfl

theorem summary_line_head (n : Nat) :
    ("📊 Total: " ++ toString n ++ " updates").data.head? = some '📊' := rfl

theorem head_ne_in_aurSectionLines (st : AURChecker) (tl : List String)
    (htl : ∀ x ∈ tl, x.data.head? ≠ some '📊') :
    ∀ l ∈ aurSectionLines st tl, l.data.head? ≠ some '📊' := by
  have hl1 : ∀ x ∈ (if tl ≠ [] then tl ++ [""] else tl), x.data.head? ≠ some '📊' := by
    split
    · intro x hx
      rcases List.mem_append.mp hx with h | h
      · exact htl x h
      · simp at h; subst h; decide
    · exact htl
  have hC : ∀ x ∈ ((if tl ≠ [] then tl ++ [""] else tl) ++ ["🌟 AUR Updates:"]
      ++ (st.aur_updates.take 8).map (fun pkg =>
            if pkg ∈ st.nvidia_updates then "  ⚠️ " ++ pyReprRecord pkg ++ " (NVIDIA)"
            else "  • " ++ pyReprRecord pkg)), x.data.head? ≠ some '📊' := by
    intro x hx
    rcases List.mem_append.mp hx with hx | hx
    · rcases List.mem_append.mp hx with hx | hx
      · exact hl1 x hx
      · simp at hx; subst hx; decide
    · obtain ⟨pkg, hpkg, rfl⟩ := List.mem_map.mp hx
      by_cases hm : pkg ∈ st.nvidia_updates
      · rw [if_pos hm, warn_entry_head pkg]; decide
      · rw [if_neg hm, plain_entry_head pkg]; decide
  intro l hl
  simp only [aurSectionLines] at hl
  by_cases ha : st.aur_updates ≠ []
  · rw [if_pos ha] at hl
    by_cases hlen : st.aur_updates.length > 8
    · rw [if_pos hlen] at hl
      rcases List.mem_append.mp hl with hl | hl
      · exact hC l hl
      · simp at hl; subst hl
        rw [more_line_head]; decide
    · rw [if_neg hlen] at hl
      exact hC l hl
  · rw [if_neg ha] at hl
    exact htl l hl

theorem tooltip_head_ne_of_official_nil (st : AURChecker)
    (hoff : st.official_updates = []) :
    ∀ l ∈ format_tooltip_lines st, l.data.head? ≠ some '📊' := by
  have hOS : ∀ tl, officialSectionLines st tl = tl := by
    intro tl; unfold officialSectionLines; rw [if_neg (by simp [hoff])]
  have hban : ∀ x ∈ (if st.nvidia_updates ≠ [] then
      ["🚨 NVIDIA DRIVER UPDATES AVAILABLE!", "Consider checking Arch news before updating", ""]
      else ([] : List String)), x.data.head? ≠ some '📊' := by
    split
    · intro x hx
      simp at hx
      rcases hx with rfl | rfl | rfl <;> decide
    · intro x hx; simp at hx
  have haur := head_ne_in_aurSectionLines st
    (officialSectionLines st (if st.nvidia_updates ≠ [] then
      ["🚨 NVIDIA DRIVER UPDATES AVAILABLE!", "Consider checking Arch news before updating", ""]
      else []))
    (by rw [hOS]; exact hban)
  intro l hl
  simp only [format_tooltip_lines] at hl
  by_cases ht3 : aurSectionLines st
      (officialSectionLines st (if st.nvidia_updates ≠ [] then
        ["🚨 NVIDIA DRIVER UPDATES AVAILABLE!", "Consider checking Arch news before updating", ""]
        else [])) = []
  · rw [if_pos ht3, ht3] at hl
    simp at hl
    subst hl
    decide
  · rw [if_neg ht3] at hl
    exact haur l hl

/-! ## Claims -/

/-- Claim C1: for every line of adapter command output: if the line,
whitespace-tokenized, has at least 4 tokens and token index 2 equals the
literal string "->", parsing produces exactly one UpdateRecord with
name = token 0, currentVersion = token 1, newVersion = token 3 (extra
trailing tokens are ignored); for every blank line, line with fewer than
4 tokens, or line whose token index 2 is not "->", parsing produces no
record.  Stated for both the official and the AUR adapter loop bodies. -/
theorem c1_line_parsing (st : AURChecker) (line : String) :
    if (pySplit line).length ≥ 4 ∧ (pySplit line).getD 2 "" = "->" then
      (process_official_line st line).official_updates
        = st.official_updates ++
          [⟨(pySplit line).getD 0 "", (pySplit line).getD 1 "", (pySplit line).getD 3 "", "official"⟩] ∧
      (process_aur_line st line).aur_updates
        = st.aur_updates ++
          [⟨(pySplit line).getD 0 "", (pySplit line).getD 1 "", (pySplit line).getD 3 "", "aur"⟩]
    else
      (process_official_line st line).official_updates = st.official_updates ∧
      (process_aur_line st line).aur_updates = st.aur_updates := by
  by_cases hb : line.data.any (fun c => !c.isWhitespace) = true
  · by_cases hc : (pySplit line).length ≥ 4 ∧ (pySplit line).getD 2 "" = "->"
    · rw [if_pos hc]
      constructor
      · simp only [process_official_line, hb, if_true, hc, and_self, reduceIte]
        split <;> rfl
      · simp only [process_aur_line, hb, if_true, hc, and_self, reduceIte]
        split <;> rfl
    · rw [if_neg hc]
      constructor
      · simp only [process_official_line, hb, if_true, hc, reduceIte]
      · simp only [process_aur_line, hb, if_true, hc, reduceIte]
  · have hps : pySplit line = [] := pySplit_nil_of_blank line hb
    have hcond : ¬ ((pySplit line).length ≥ 4 ∧ (pySplit line).getD 2 "" = "->") := by
      rw [hps]; simp
    rw [if_neg hcond]
    constructor
    · simp [process_official_line, hb]
    · simp [process_aur_line, hb]

/-- Claim C2 counterexample: the original claim says the severity class for
a cycle with a vendor-sensitive update is the string "vendor-warning"; the
code emits "nvidia-warning" instead, while the vendor-sensitive sequence
is non-empty. -/
theorem c2_counterexample :
    (waybar_output AURChecker.init "nvidia-utils 1.0 -> 2.0" "").2.nvidia_updates ≠ [] ∧
    (waybar_output AURChecker.init "nvidia-utils 1.0 -> 2.0" "").1.cssClass ≠ "vendor-warning" := by
  constructor
  · intro h
    exact absurd (congrArg List.length h) (by decide)
  · intro h
    exact absurd h (by decide)

/-- Claim C2 (amended): for every reporting cycle, the output field "class"
is "nvidia-warning" if and only if the vendor-sensitive sequence is
non-empty; it is "has-updates" iff that sequence is empty and the total is
positive; it is "no-updates" iff that sequence is empty and the total is
zero; and it is always exactly one of these three strings. -/
theorem c2_class_selection (st0 : AURChecker) (off aur : String) :
    ((waybar_output st0 off aur).1.cssClass = "nvidia-warning"
        ↔ (waybar_output st0 off aur).2.nvidia_updates ≠ []) ∧
    ((waybar_output st0 off aur).1.cssClass = "has-updates"
        ↔ ((waybar_output st0 off aur).2.nvidia_updates = []
            ∧ 0 < get_total_updates (waybar_output st0 off aur).2)) ∧
    ((waybar_output st0 off aur).1.cssClass = "no-updates"
        ↔ ((waybar_output st0 off aur).2.nvidia_updates = []
            ∧ get_total_updates (waybar_output st0 off aur).2 = 0)) ∧
    ((waybar_output st0 off aur).1.cssClass = "nvidia-warning"
      ∨ (waybar_output st0 off aur).1.cssClass = "has-updates"
      ∨ (waybar_output st0 off aur).1.cssClass = "no-updates") := by
  rw [waybar_output_cssClass, waybar_output_snd]
  by_cases h1 : (get_all_updates st0 off aur).nvidia_updates = []
  · rw [if_neg (by simp [h1])]
    by_cases h2 : 0 < get_total_updates (get_all_updates st0 off aur)
    · rw [if_pos h2]
      refine ⟨by simp [h1], by simp [h1, h2], by simp [Nat.pos_iff_ne_zero.mp h2], by simp⟩
    · rw [if_neg h2]
      refine ⟨by simp [h1], by simp [h2], by simp [h1, Nat.eq_zero_of_not_pos h2], by simp⟩
  · rw [if_pos (List.length_pos.mpr h1)]
    refine ⟨by simp [h1], by simp [h1], by simp [h1], by simp⟩

/-- Claim C4 counterexample: waybar_output does not reset the record
sequences, so two consecutive invocations on the same checker with the same
command outputs do not reproduce the report of a single invocation on a
fresh checker (the total doubles). -/
theorem c4_counterexample :
    (waybar_output ((waybar_output AURChecker.init "firefox 1.0 -> 1.1" "").2)
        "firefox 1.0 -> 1.1" "").1
      ≠ (waybar_output AURChecker.init "firefox 1.0 -> 1.1" "").1 := by
  intro h
  exact absurd (congrArg WaybarOutput.text h) (by decide)

/-- Claim C4 (amended): waybar_output performs no reset; the three record
sequences are empty only at construction (AURChecker.init), and a run from
any state appends, after the pre-existing records, exactly the records a
run from a fresh checker would produce.  On the fresh checker built once
per process by main this yields per-invocation behavior, but a second
invocation on the same checker accumulates. -/
theorem c4_accumulation (st : AURChecker) (off aur : String) :
    AURChecker.init.official_updates = [] ∧ AURChecker.init.aur_updates = [] ∧
    AURChecker.init.nvidia_updates = [] ∧
    (waybar_output st off aur).2.official_updates
      = st.official_updates ++ (waybar_output AURChecker.init off aur).2.official_updates ∧
    (waybar_output st off aur).2.aur_updates
      = st.aur_updates ++ (waybar_output AURChecker.init off aur).2.aur_updates ∧
    (waybar_output st off aur).2.nvidia_updates
      = st.nvidia_updates ++ (waybar_output AURChecker.init off aur).2.nvidia_updates := by
  obtain ⟨ho, ha, hn⟩ := get_all_updates_shift st off aur
  exact ⟨rfl, rfl, rfl, ho, ha, hn⟩

/-- Claim C8: after any reporting cycle the reported total equals the length
of the official sequence plus the length of the community sequence, and both
the "text" field (icon followed by the total) and the "alt" field
("Updates: " followed by the total) embed exactly this number. -/
theorem c8_totals (st0 : AURChecker) (off aur : String) :
    get_total_updates (waybar_output st0 off aur).2
      = (waybar_output st0 off aur).2.official_updates.length
        + (waybar_output st0 off aur).2.aur_updates.length ∧
    (waybar_output st0 off aur).1.alt
      = "Updates: " ++ toString ((waybar_output st0 off aur).2.official_updates.length
          + (waybar_output st0 off aur).2.aur_updates.length) ∧
    ∃ icon, (icon = "⚠️" ∨ icon = "🔄" ∨ icon = "✅") ∧
      (waybar_output st0 off aur).1.text
        = icon ++ toString ((waybar_output st0 off aur).2.official_updates.length
            + (waybar_output st0 off aur).2.aur_updates.length) := by
  refine ⟨rfl, rfl, ?_⟩
  rw [waybar_output_text, waybar_output_snd]
  by_cases h1 : 0 < (get_all_updates st0 off aur).nvidia_updates.length
  · exact ⟨"⚠️", Or.inl rfl, by rw [if_pos h1]; rfl⟩
  · by_cases h2 : 0 < get_total_updates (get_all_updates st0 off aur)
    · exact ⟨"🔄", Or.inr (Or.inl rfl), by rw [if_neg h1, if_pos h2]; rfl⟩
    · exact ⟨"✅", Or.inr (Or.inr rfl), by rw [if_neg h1, if_neg h2]; rfl⟩

/-- Claim C3 (code_bug evidence): with official output empty and one
vendor-sensitive AUR line, the record stored in nvidia_updates carries the
origin tag "official" (copy-paste slip in get_aur_updates), while the
community sequence holds the same data tagged "aur"; hence the
vendor-sensitive record equals no member of official ++ community under
the dict equality the tooltip membership tests use. -/
theorem c3_bug_eval :
    (get_all_updates AURChecker.init "" "nvidia-utils 1.0 -> 2.0").nvidia_updates
      = [⟨"nvidia-utils", "1.0", "2.0", "official"⟩] ∧
    (get_all_updates AURChecker.init "" "nvidia-utils 1.0 -> 2.0").official_updates = [] ∧
    (get_all_updates AURChecker.init "" "nvidia-utils 1.0 -> 2.0").aur_updates
      = [⟨"nvidia-utils", "1.0", "2.0", "aur"⟩] ∧
    (⟨"nvidia-utils", "1.0", "2.0", "official"⟩ : UpdateRecord)
      ∉ (get_all_updates AURChecker.init "" "nvidia-utils 1.0 -> 2.0").official_updates
        ++ (get_all_updates AURChecker.init "" "nvidia-utils 1.0 -> 2.0").aur_updates := by
  refine ⟨rfl, rfl, rfl, by decide⟩

/-- Claim C5 counterexample: with 12 official non-vendor updates the
official section shows 8 entry lines and NO "...and 4 more" line — the
rendered tooltip contains no line with the fragment "more" at all,
refuting the claimed truncation shape for the official section. -/
theorem c5_counterexample :
    (get_all_updates AURChecker.init
        "p01 1 -> 2\np02 1 -> 2\np03 1 -> 2\np04 1 -> 2\np05 1 -> 2\np06 1 -> 2\np07 1 -> 2\np08 1 -> 2\np09 1 -> 2\np10 1 -> 2\np11 1 -> 2\np12 1 -> 2"
        "").official_updates.length = 12 ∧
    format_tooltip_lines (get_all_updates AURChecker.init
        "p01 1 -> 2\np02 1 -> 2\np03 1 -> 2\np04 1 -> 2\np05 1 -> 2\np06 1 -> 2\np07 1 -> 2\np08 1 -> 2\np09 1 -> 2\np10 1 -> 2\np11 1 -> 2\np12 1 -> 2"
        "")
      = ["📦 Official Updates:", "Count:12",
         " • p01: 1 -> 2", " • p02: 1 -> 2", " • p03: 1 -> 2", " • p04: 1 -> 2",
         " • p05: 1 -> 2", " • p06: 1 -> 2", " • p07: 1 -> 2", " • p08: 1 -> 2",
         "", "📊 Total: 12 updates"] ∧
    (format_tooltip_lines (get_all_updates AURChecker.init
        "p01 1 -> 2\np02 1 -> 2\np03 1 -> 2\np04 1 -> 2\np05 1 -> 2\np06 1 -> 2\np07 1 -> 2\np08 1 -> 2\np09 1 -> 2\np10 1 -> 2\np11 1 -> 2\np12 1 -> 2"
        "")).all (fun l => !(listHasSub "more".data l.data)) = true := by
  refine ⟨rfl, rfl, rfl⟩

/-- Claim C5 (amended): the "exactly 8 entries plus one trailing
'... and (n-8) more' line" truncation shape holds for the community (AUR)
section whenever the community sequence has more than 8 entries; the
official section shows at most its first 8 non-vendor entries with no
"more" line (see the counterexample for the 12-official scenario). -/
theorem c5_aur_truncation (st : AURChecker) (h : 8 < st.aur_updates.length) :
    ∃ pre : List String,
      format_tooltip_lines st
        = pre ++ ["🌟 AUR Updates:"]
            ++ (st.aur_updates.take 8).map (fun pkg =>
                  if pkg ∈ st.nvidia_updates then "  ⚠️ " ++ pyReprRecord pkg ++ " (NVIDIA)"
                  else "  • " ++ pyReprRecord pkg)
            ++ ["  ... and " ++ toString (st.aur_updates.length - 8) ++ " more"] := by
  simp only [format_tooltip_lines]
  rw [aurSectionLines_eq_of_gt8 st _ h]
  rw [if_neg (by simp)]
  exact ⟨_, rfl⟩

/-- Witness for C5 at a concrete cycle with 9 community updates. -/
theorem c5_aur_truncation_witness :
    ∃ pre : List String,
      format_tooltip_lines (get_all_updates AURChecker.init ""
          "a1 1 -> 2\na2 1 -> 2\na3 1 -> 2\na4 1 -> 2\na5 1 -> 2\na6 1 -> 2\na7 1 -> 2\na8 1 -> 2\na9 1 -> 2")
        = pre ++ ["🌟 AUR Updates:"]
            ++ (((get_all_updates AURChecker.init ""
                  "a1 1 -> 2\na2 1 -> 2\na3 1 -> 2\na4 1 -> 2\na5 1 -> 2\na6 1 -> 2\na7 1 -> 2\na8 1 -> 2\na9 1 -> 2").aur_updates.take 8).map
                (fun pkg =>
                  if pkg ∈ (get_all_updates AURChecker.init ""
                      "a1 1 -> 2\na2 1 -> 2\na3 1 -> 2\na4 1 -> 2\na5 1 -> 2\na6 1 -> 2\na7 1 -> 2\na8 1 -> 2\na9 1 -> 2").nvidia_updates
                  then "  ⚠️ " ++ pyReprRecord pkg ++ " (NVIDIA)"
                  else "  • " ++ pyReprRecord pkg))
            ++ ["  ... and " ++ toString ((get_all_updates AURChecker.init ""
                  "a1 1 -> 2\na2 1 -> 2\na3 1 -> 2\na4 1 -> 2\na5 1 -> 2\na6 1 -> 2\na7 1 -> 2\na8 1 -> 2\na9 1 -> 2").aur_updates.length - 8) ++ " more"] :=
  c5_aur_truncation _ (by decide)

/-- Claim C6 counterexample: a cycle with one community update and no
official updates produces a tooltip with a community section but no
trailing summary line (no line contains "Total"), refuting "summary iff at
least one section was added". -/
theorem c6_counterexample :
    (get_all_updates AURChecker.init "" "foo 1.0 -> 2.0").aur_updates ≠ [] ∧
    format_tooltip_lines (get_all_updates AURChecker.init "" "foo 1.0 -> 2.0")
      = ["🌟 AUR Updates:",
         "  • \x7b'name': 'foo', 'current': '1.0', 'new': '2.0', 'type': 'aur'\x7d"] ∧
    (format_tooltip_lines (get_all_updates AURChecker.init "" "foo 1.0 -> 2.0")).all
      (fun l => !(listHasSub "Total".data l.data)) = true := by
  refine ⟨by decide, rfl, rfl⟩

/-- Claim C6 (amended): for every reporting cycle, the tooltip contains the
"📊 Total: n updates" summary line if and only if the OFFICIAL sequence is
non-empty (the summary lives inside the official branch, so a
community-only cycle gets no summary); and when both update sequences are
empty the tooltip is exactly the single up-to-date line. -/
theorem c6_summary_iff_official (off aur : String) :
    (("📊 Total: " ++ toString ((get_all_updates AURChecker.init off aur).official_updates.length
          + (get_all_updates AURChecker.init off aur).aur_updates.length) ++ " updates")
        ∈ format_tooltip_lines (get_all_updates AURChecker.init off aur)
      ↔ (get_all_updates AURChecker.init off aur).official_updates ≠ []) ∧
    ((get_all_updates AURChecker.init off aur).official_updates = [] →
      (get_all_updates AURChecker.init off aur).aur_updates = [] →
      format_tooltip_lines (get_all_updates AURChecker.init off aur)
        = ["✅ System is up to date"]) := by
  constructor
  · constructor
    · intro hmem
      intro hoff
      exact tooltip_head_ne_of_official_nil (get_all_updates AURChecker.init off aur) hoff _
        hmem (summary_line_head _)
    · intro hoff
      have h1 := summary_mem_officialSectionLines (get_all_updates AURChecker.init off aur)
        (if (get_all_updates AURChecker.init off aur).nvidia_updates ≠ [] then
          ["🚨 NVIDIA DRIVER UPDATES AVAILABLE!", "Consider checking Arch news before updating", ""]
         else []) hoff
      have h2 := mem_aurSectionLines (get_all_updates AURChecker.init off aur) _ _ h1
      show _ ∈ format_tooltip_lines (get_all_updates AURChecker.init off aur)
      simp only [format_tooltip_lines]
      rw [if_neg (List.ne_nil_of_mem h2)]
      exact h2
  · intro ho ha
    have hnv := nvidia_nil_of_both_nil off aur ho ha
    simp [format_tooltip_lines, officialSectionLines, aurSectionLines, ho, ha, hnv]

/-- Witness for C6 at the empty cycle: both adapters return nothing and the
tooltip is the single up-to-date line. -/
theorem c6_summary_iff_official_witness :
    format_tooltip_lines (get_all_updates AURChecker.init "" "")
      = ["✅ System is up to date"] :=
  (c6_summary_iff_official "" "").2 rfl rfl

/-- Claim C7 (code_bug evidence): a community update of a vendor-sensitive
package ("nvidia-utils") is rendered in the AUR tooltip section as the raw
record text with the plain bullet and no warning marker — the marker
branch is unreachable because the community record is tagged "aur" while
the vendor list holds a copy tagged "official" — and not in the claimed
"name: current -> new" form. -/
theorem c7_bug_eval :
    identify_nvidia_pkg "nvidia-utils" = true ∧
    (get_all_updates AURChecker.init "" "nvidia-utils 1.0 -> 2.0").aur_updates
      = [⟨"nvidia-utils", "1.0", "2.0", "aur"⟩] ∧
    format_tooltip_lines (get_all_updates AURChecker.init "" "nvidia-utils 1.0 -> 2.0")
      = ["🚨 NVIDIA DRIVER UPDATES AVAILABLE!", "Consider checking Arch news before updating",
         "", "", "🌟 AUR Updates:",
         "  • \x7b'name': 'nvidia-utils', 'current': '1.0', 'new': '2.0', 'type': 'aur'\x7d"] := by
  exact ⟨rfl, rfl, rfl⟩

/-- Claim C9: the vendor classifier is a pure total function of the package
name; matching is anchored at the start of the string (every successful
classification is witnessed by a pattern literal occurring as a prefix of
the name), and the outcome is independent of the order of the pattern
list: any permutation of the pattern list classifies every name the same
way. -/
theorem c9_classifier (x : String) (l : List (String × Bool))
    (h : l.Perm nvidia_patterns) :
    l.any (fun p => matchPat p x) = identify_nvidia_pkg x ∧
    (identify_nvidia_pkg x = true →
      ∃ p ∈ nvidia_patterns, listStartsWith p.1.data x.data = true) := by
  constructor
  · rw [identify_nvidia_pkg, Bool.eq_iff_iff, List.any_eq_true, List.any_eq_true]
    constructor
    · rintro ⟨p, hp, hm⟩; exact ⟨p, h.mem_iff.mp hp, hm⟩
    · rintro ⟨p, hp, hm⟩; exact ⟨p, h.mem_iff.mpr hp, hm⟩
  · intro hx
    rw [identify_nvidia_pkg, List.any_eq_true] at hx
    obtain ⟨p, hp, hm⟩ := hx
    refine ⟨p, hp, ?_⟩
    rw [matchPat] at hm
    by_cases he : p.2 = true
    · rw [if_pos he] at hm
      have hxe : x = p.1 := of_decide_eq_true hm
      rw [hxe]
      exact listStartsWith_refl _
    · rw [if_neg he] at hm
      exact hm

/-- Witness for C9 at a concrete input: the reversed pattern list is a
permutation of the original and classifies "cuda" identically. -/
theorem c9_classifier_witness :
    (nvidia_patterns.reverse.any (fun p => matchPat p "cuda")
      = identify_nvidia_pkg "cuda") ∧
    (identify_nvidia_pkg "cuda" = true →
      ∃ p ∈ nvidia_patterns, listStartsWith p.1.data "cuda".data = true) :=
  c9_classifier "cuda" nvidia_patterns.reverse (List.reverse_perm nvidia_patterns)

/-- Claim C10: the classifier returns true for every name starting with the
bare prefix "cuda" (e.g. the unrelated "cudatext"), and for every name
starting with "nvidia-", "opencl-nvidia" or "lib32-nvidia-utils", and for
the exact name "nvidia"; while "nvidia" followed by any non-empty suffix
that does not start with "-" (e.g. "nvidias") is classified false. -/
theorem c10_vendor_boundaries (y s : String) (hs : s ≠ "")
    (hdash : listStartsWith ['-'] s.data = false) :
    identify_nvidia_pkg ("cuda" ++ y) = true ∧
    identify_nvidia_pkg ("nvidia-" ++ y) = true ∧
    identify_nvidia_pkg ("opencl-nvidia" ++ y) = true ∧
    identify_nvidia_pkg ("lib32-nvidia-utils" ++ y) = true ∧
    identify_nvidia_pkg "nvidia" = true ∧
    identify_nvidia_pkg "cudatext" = true ∧
    identify_nvidia_pkg ("nvidia" ++ s) = false := by
  have hd : s.data ≠ [] := by
    intro h0
    apply hs
    cases s with
    | mk d =>
      have hdd : d = [] := h0
      rw [hdd]
  obtain ⟨c, d, hcd⟩ : ∃ c d, s.data = c :: d := by
    cases hh : s.data with
    | nil => exact absurd hh hd
    | cons c d => exact ⟨c, d, rfl⟩
  have hc : decide ('-' = c) = false := by
    rw [hcd] at hdash
    simpa [listStartsWith] using hdash
  have hcne : c ≠ '-' := by
    intro h0; rw [h0] at hc; simp at hc
  have hx : ("nvidia" ++ s).data = 'n' :: 'v' :: 'i' :: 'd' :: 'i' :: 'a' :: (c :: d) := by
    rw [show ("nvidia" ++ s).data = "nvidia".data ++ s.data from rfl, hcd]
    rfl
  refine ⟨rfl, rfl, rfl, rfl, rfl, rfl, ?_⟩
  rw [identify_nvidia_pkg, nvidia_patterns]
  simp only [List.any_cons, List.any_nil, Bool.or_eq_false_iff, matchPat, reduceIte]
  refine ⟨?_, ?_, ?_, ?_, ?_, ?_, ?_, ?_, ?_, trivial⟩
  · -- pattern "nvidia" (exact)
    rw [decide_eq_false_iff_not]
    intro h0
    have h1 := congrArg String.data h0
    rw [hx] at h1
    simp at h1
  · -- pattern "nvidia-" (anchored prefix)
    rw [hx, show listStartsWith "nvidia-".data ('n' :: 'v' :: 'i' :: 'd' :: 'i' :: 'a' :: c :: d)
      = (decide ('-' = c) && true) from rfl, hc]
    rfl
  · -- pattern "nvidia-lts" (exact)
    rw [decide_eq_false_iff_not]
    intro h0
    have h1 := congrArg String.data h0
    rw [hx] at h1
    simp at h1
    exact hcne h1.1
  · -- pattern "nvidia-dkms" (exact)
    rw [decide_eq_false_iff_not]
    intro h0
    have h1 := congrArg String.data h0
    rw [hx] at h1
    simp at h1
    exact hcne h1.1
  · -- pattern "nvidia-utils" (anchored prefix)
    rw [hx, show listStartsWith "nvidia-utils".data ('n' :: 'v' :: 'i' :: 'd' :: 'i' :: 'a' :: c :: d)
      = (decide ('-' = c) && listStartsWith ['u','t','i','l','s'] d) from rfl, hc]
    rfl
  · -- pattern "lib32-nvidia-utils": first character mismatch
    rw [hx]; rfl
  · -- pattern "cuda": first character mismatch
    rw [hx]; rfl
  · -- pattern "opencl-nvidia": first character mismatch
    rw [hx]; rfl
  · -- pattern "nvidia-settings" (anchored prefix)
    rw [hx, show listStartsWith "nvidia-settings".data ('n' :: 'v' :: 'i' :: 'd' :: 'i' :: 'a' :: c :: d)
      = (decide ('-' = c) && listStartsWith ['s','e','t','t','i','n','g','s'] d) from rfl, hc]
    rfl

/-- Witness for C10 at concrete inputs, in particular "nvidias" (the name
"nvidia" with suffix "s") is classified false. -/
theorem c10_vendor_boundaries_witness :
    identify_nvidia_pkg "cudatext" = true ∧ identify_nvidia_pkg "nvidias" = false := by
  have h := c10_vendor_boundaries "text" "s" (by decide) (by decide)
  exact ⟨h.2.2.2.2.2.1, by
    have h7 := h.2.2.2.2.2.2
    rw [show ("nvidia" ++ "s" : String) = "nvidias" from rfl] at h7
    exact h7⟩

end AURWidget
